import Mathlib

/-!
Shallow embedding of the OAuth token lifecycle manager of the
linkedln-commits repository:

* `src/database/models/oauthToken.js` — the `OAuthToken` document schema and
  its instance methods `isAccessTokenExpired`, `needsRefresh`,
  `isRefreshTokenExpired`, and the static query `findTokensNeedingRefresh`.
* `src/src/api/oauthService.js` — `OAuthService`: `storeTokens`,
  `getValidAccessToken`, `revokeTokens`, `refreshAccessToken`,
  `refreshExpiringTokens`.
* `src/src/api/oauthController.js` — the state-validation phase of the
  OAuth callback handler.

Time is modelled as `Int` seconds of absolute wall-clock time; the
JavaScript `new Date()` at a call site becomes an explicit `now : Int`
parameter.  The Mongo collection becomes a `List TokenRecord` (the schema
declares a unique compound index on `(user_id, provider)`; `provider` is the
single fixed value `'linkedin'`, so records are keyed by `user_id` alone).
Network I/O (the axios POST of a refresh) becomes an explicit
`NetOutcome` parameter describing what the provider would answer.
-/

namespace LinkedInOAuth

/-- One day in seconds.  The source computes the sweep window with
`oneDayFromNow.setDate(oneDayFromNow.getDate() + 1)`, i.e. one calendar day
ahead of now; we model it as a fixed 86400-second offset. -/
def oneDaySeconds : Int := 86400

/-- A stored `OAuthToken` document (`src/database/models/oauthToken.js`).
`provider` is omitted: the schema restricts it to the single enum value
`'linkedin'` and every query in the service fixes it to that value.
Optional schema fields (`refresh_token`, `refresh_expires_at`, `scope`)
are `Option`s; a field that is absent or `null` in the document is `none`. -/
structure TokenRecord where
  user_id : String
  access_token : String
  refresh_token : Option String
  token_type : String
  expires_at : Int
  refresh_expires_at : Option Int
  scope : Option String
deriving DecidableEq, Repr

/-- `oauthTokenSchema.methods.isAccessTokenExpired`:
`return new Date() >= this.expires_at;`. -/
def isAccessTokenExpired (doc : TokenRecord) (now : Int) : Bool :=
  decide (doc.expires_at ≤ now)

/-- `oauthTokenSchema.methods.needsRefresh`: true when the access token
expires within one day of now (`this.expires_at <= oneDayFromNow`). -/
def needsRefresh (doc : TokenRecord) (now : Int) : Bool :=
  decide (doc.expires_at ≤ now + oneDaySeconds)

/-- `oauthTokenSchema.methods.isRefreshTokenExpired`: when
`refresh_expires_at` is absent the method returns `false`
("If no expiration, assume it doesn't expire"); otherwise
`new Date() >= this.refresh_expires_at`. -/
def isRefreshTokenExpired (doc : TokenRecord) (now : Int) : Bool :=
  match doc.refresh_expires_at with
  | none => false
  | some t => decide (t ≤ now)

/-- `OAuthToken.findTokensNeedingRefresh`: the Mongo query
`{ expires_at: { $lte: oneDayFromNow }, refresh_token: { $exists: true, $ne: null } }`
(with secrets selected).  A record passes iff its expiry is at most one day
from now and its `refresh_token` field is present and non-null. -/
def findTokensNeedingRefresh (now : Int) (store : List TokenRecord) : List TokenRecord :=
  store.filter (fun doc => needsRefresh doc now && doc.refresh_token.isSome)

/-- `OAuthToken.findOne({ user_id: userId, provider: 'linkedin' })`:
the first stored document for this user.  The embedding keeps the secret
fields in the record, corresponding to a read with
`.select('+access_token +refresh_token')`. -/
def findOne (store : List TokenRecord) (userId : String) : Option TokenRecord :=
  store.find? (fun doc => doc.user_id == userId)

/-- The raw token payload a provider token-endpoint response carries
(`response.data` of the axios POST): `access_token`, `expires_in`, and the
optional `refresh_token`, `refresh_token_expires_in`, `scope`,
`token_type` fields. -/
structure TokenPayload where
  access_token : String
  expires_in : Int
  refresh_token : Option String
  refresh_token_expires_in : Option Int
  scope : Option String
  token_type : Option String
deriving DecidableEq, Repr

/-- The document produced by the `findOneAndUpdate` upsert inside
`OAuthService.storeTokens`, given the previously stored document `old`
(if any) for this key.

* `expires_at` is `now + tokenData.expires_in` — the relative expiry is
  converted to an absolute timestamp at write time.
* `refresh_expires_at` is set from `refresh_token_expires_in` when that
  value is truthy (present and non-zero), and explicitly `null` otherwise
  (`let refreshExpiresAt = null; if (tokenData.refresh_token_expires_in) ...`).
* `refresh_token` and `scope` are passed straight from the payload; when
  the payload value is `undefined`, Mongoose strips the key from the update
  document, so the old stored value (if any) is preserved.
* `token_type` falls back to `'Bearer'` when the payload value is falsy
  (`tokenData.token_type || 'Bearer'`). -/
def upsertDoc (now : Int) (userId : String) (old : Option TokenRecord)
    (tokenData : TokenPayload) : TokenRecord :=
  { user_id := userId
    access_token := tokenData.access_token
    refresh_token :=
      match tokenData.refresh_token with
      | some rt => some rt
      | none => old.bind (fun doc => doc.refresh_token)
    token_type :=
      match tokenData.token_type with
      | some t => if t = "" then ("Bearer") else t
      | none => ("Bearer")
    expires_at := now + tokenData.expires_in
    refresh_expires_at :=
      match tokenData.refresh_token_expires_in with
      | some s => if s = 0 then none else some (now + s)
      | none => none
    scope :=
      match tokenData.scope with
      | some s => some s
      | none => old.bind (fun doc => doc.scope) }

/-- `OAuthService.storeTokens(userId, tokenData)`: a
`findOneAndUpdate({user_id, provider}, ..., { upsert: true })` — atomically
replaces the existing document for the key, or inserts a new one. -/
def storeTokens (now : Int) (userId : String) (tokenData : TokenPayload)
    (store : List TokenRecord) : List TokenRecord :=
  if (store.find? (fun doc => doc.user_id == userId)).isSome then
    store.map (fun doc =>
      if doc.user_id == userId then upsertDoc now userId (some doc) tokenData else doc)
  else
    store ++ [upsertDoc now userId none tokenData]

/-- What the provider's token endpoint would answer to a refresh request:
a 2xx with a payload, a structured 4xx error body, or a transport failure
(timeout, DNS, connection reset). -/
inductive NetOutcome where
  | success (data : TokenPayload)
  | providerError (msg : String)
  | transportError (msg : String)
deriving DecidableEq, Repr

/-- `OAuthService.refreshAccessToken(refreshToken)`: a single POST to the
token endpoint; on a provider-reported error or a transport error the
method throws `Token refresh failed: ...`.  The embedding maps the throw to
`Except.error` carrying the message. -/
def refreshAccessToken (net : NetOutcome) : Except String TokenPayload :=
  match net with
  | .success data => .ok data
  | .providerError msg => .error ("Token refresh failed: " ++ msg)
  | .transportError msg => .error ("Token refresh failed: " ++ msg)

/-- The errors `OAuthService.getValidAccessToken` can throw, one
constructor per distinct `throw new Error(...)` site.  The spec's
`ReauthorizationRequired` covers `noRefreshToken` and `bothExpired`;
`NoToken` is `noToken`; `RefreshFailed` is `refreshFailed`. -/
inductive OAuthError where
  | noToken
  | noRefreshToken
  | bothExpired
  | refreshFailed (msg : String)
deriving DecidableEq, Repr

/-- The spec's `ReauthorizationRequired` category: the two throw sites
reached when the access token is expired and no refresh is possible
("no refresh token available", "Re-authentication required"). -/
def OAuthError.isReauthorizationRequired : OAuthError → Bool
  | .noRefreshToken => true
  | .bothExpired => true
  | _ => false

/-- Result of one `getValidAccessToken` call: the returned token or thrown
error, the store as left behind, and how many network calls were made. -/
structure AccessResult where
  result : Except OAuthError String
  store : List TokenRecord
  networkCalls : Nat
deriving Repr

/-- `OAuthService.getValidAccessToken(userId)`:
1. `findOne` with secrets; throw `noToken` if absent.
2. If `!isAccessTokenExpired()` return the stored `access_token` unchanged.
3. If `!tokenDoc.refresh_token` (absent or empty string — JS truthiness)
   throw `noRefreshToken`.
4. If `isRefreshTokenExpired()` throw `bothExpired`.
5. Otherwise one refresh network call; on failure the error propagates and
   nothing is written; on success `storeTokens` persists the payload and
   the new `access_token` is returned. -/
def getValidAccessToken (now : Int) (userId : String) (net : NetOutcome)
    (store : List TokenRecord) : AccessResult :=
  match findOne store userId with
  | none => ⟨.error .noToken, store, 0⟩
  | some tokenDoc =>
    if isAccessTokenExpired tokenDoc now = false then
      ⟨.ok tokenDoc.access_token, store, 0⟩
    else
      match tokenDoc.refresh_token with
      | none => ⟨.error .noRefreshToken, store, 0⟩
      | some rt =>
        if rt = "" then ⟨.error .noRefreshToken, store, 0⟩
        else if isRefreshTokenExpired tokenDoc now then
          ⟨.error .bothExpired, store, 0⟩
        else
          match refreshAccessToken net with
          | .error msg => ⟨.error (.refreshFailed msg), store, 1⟩
          | .ok newTokenData =>
            ⟨.ok newTokenData.access_token,
             storeTokens now userId newTokenData store, 1⟩

/-- True when the call failed and the thrown error is in the spec's
`ReauthorizationRequired` category. -/
def AccessResult.failsReauthorization (r : AccessResult) : Bool :=
  match r.result with
  | .error e => e.isReauthorizationRequired
  | .ok _ => false

/-- `OAuthService.revokeTokens(userId)`:
`OAuthToken.deleteOne({ user_id, provider })` — removes the first matching
document if one exists, and succeeds regardless. -/
def revokeTokens (userId : String) (store : List TokenRecord) : List TokenRecord :=
  store.eraseP (fun doc => doc.user_id == userId)

/-- The aggregate result object of `refreshExpiringTokens`:
`{ success, failed, errors }` with `errors` a list of
`{ userId, error }` pairs. -/
structure SweepOutcome where
  success : Nat
  failed : Nat
  errors : List (String × String)
deriving DecidableEq, Repr

/-- One iteration of the sweep loop body over a fetched `tokenDoc`:
skip (and count as failed) if the refresh token is expired; otherwise
refresh over the network and either persist + count success, or record the
thrown message and count failed.  `net` gives the provider's answer to the
refresh call made for each user's record. -/
def sweepStep (now : Int) (net : String → NetOutcome)
    (acc : SweepOutcome × List TokenRecord) (tokenDoc : TokenRecord) :
    SweepOutcome × List TokenRecord :=
  let res := acc.1
  let store := acc.2
  if isRefreshTokenExpired tokenDoc now then
    ({ res with
        failed := res.failed + 1
        errors := res.errors ++ [(tokenDoc.user_id, "Refresh token expired")] },
     store)
  else
    match refreshAccessToken (net tokenDoc.user_id) with
    | .error msg =>
      ({ res with
          failed := res.failed + 1
          errors := res.errors ++ [(tokenDoc.user_id, msg)] },
       store)
    | .ok newTokenData =>
      ({ res with success := res.success + 1 },
       storeTokens now tokenDoc.user_id newTokenData store)

/-- `OAuthService.refreshExpiringTokens()`: fetch the records needing
refresh once, then iterate; each record's failure is caught inside the
loop, so the sweep always returns its aggregate result. -/
def refreshExpiringTokens (now : Int) (net : String → NetOutcome)
    (store : List TokenRecord) : SweepOutcome × List TokenRecord :=
  (findTokensNeedingRefresh now store).foldl (sweepStep now net) (⟨0, 0, []⟩, store)

/-- The query parameters of `GET /auth/linkedin/callback` that the
controller reads: `const { code, state, error, error_description } = req.query`. -/
structure CallbackQuery where
  code : Option String
  state : Option String
  error : Option String
  error_description : Option String
deriving DecidableEq, Repr

/-- JS truthiness of an optional string value: absent (`undefined`) and the
empty string are falsy. -/
def truthy : Option String → Bool
  | none => false
  | some s => decide (s ≠ "")

/-- How far the callback handler gets before the token exchange:
an OAuth error response, one of the 400 responses (`missing_code`,
`missing_state`, `invalid_state`), or proceeding to the code exchange.
`stateValidated` records whether the CSRF comparison actually ran
(it is skipped when the session holds no truthy `oauthState`). -/
inductive CallbackOutcome where
  | oauthErrorResponse (error : String) (userCancelled : Bool)
  | missingCode
  | missingState
  | invalidState
  | proceed (code : String) (stateValidated : Bool)
deriving DecidableEq, Repr

/-- The validation phase of `OAuthController.callback` up to the token
exchange (`oauthController.js` lines 50–91):
* a truthy `error` query parameter short-circuits into a 400, flagging
  `userCancelled` iff `error === 'user_cancelled_authorize'`;
* a falsy `code` → `missing_code`; a falsy `state` → `missing_state`;
* the state comparison runs only when `req.session && req.session.oauthState`
  is truthy: then a mismatch is `invalid_state`, a match proceeds;
* when the session state is absent (or empty), validation is skipped and
  the handler proceeds to the exchange. -/
def callbackStateCheck (q : CallbackQuery) (sessionState : Option String) :
    CallbackOutcome :=
  if truthy q.error then
    .oauthErrorResponse (q.error.getD ("")) (decide (q.error = some ("user_cancelled_authorize")))
  else if truthy q.code = false then
    .missingCode
  else if truthy q.state = false then
    .missingState
  else if truthy sessionState then
    if q.state ≠ sessionState then .invalidState
    else .proceed (q.code.getD ("")) true
  else
    .proceed (q.code.getD ("")) false

/-! ### Store lemmas -/

/-- The document an upsert writes carries the key it was written under. -/
lemma upsertDoc_user_id (now : Int) (userId : String) (old : Option TokenRecord)
    (p : TokenPayload) : (upsertDoc now userId old p).user_id = userId := rfl

/-- Replacing the stored document for `userId` in place: the first match of
the mapped list is the upsert of the first match of the original list. -/
lemma find?_map_upsert (now : Int) (userId : String) (p : TokenPayload)
    (store : List TokenRecord) (doc : TokenRecord)
    (h : store.find? (fun d => d.user_id == userId) = some doc) :
    (store.map (fun d =>
        if d.user_id == userId then upsertDoc now userId (some d) p else d)).find?
      (fun d => d.user_id == userId) = some (upsertDoc now userId (some doc) p) := by
  induction store with
  | nil => simp at h
  | cons r t ih =>
    by_cases hr : (r.user_id == userId) = true
    · simp only [List.find?_cons, hr] at h
      injection h with h'
      subst h'
      simp only [List.map_cons, if_pos hr, List.find?_cons]
      have hu : ((upsertDoc now userId (some r) p).user_id == userId) = true := by
        simp [upsertDoc]
      rw [hu]
    · rw [Bool.not_eq_true] at hr
      simp only [List.find?_cons, hr] at h
      simp only [List.map_cons, hr, Bool.false_eq_true, if_false, List.find?_cons]
      exact ih h

/-- Reading back after `storeTokens`: the stored document for `userId` is
exactly the upsert of what was stored before (replacement or insertion). -/
lemma findOne_storeTokens (now : Int) (userId : String) (p : TokenPayload)
    (store : List TokenRecord) :
    findOne (storeTokens now userId p store) userId =
      some (upsertDoc now userId (findOne store userId) p) := by
  unfold findOne storeTokens
  cases hfind : store.find? (fun d => d.user_id == userId) with
  | some doc =>
    simp only [hfind, Option.isSome_some, if_true]
    exact find?_map_upsert now userId p store doc hfind
  | none =>
    simp only [hfind, Option.isSome_none, Bool.false_eq_true, if_false]
    rw [List.find?_append, hfind, Option.none_or]
    have hu : ((upsertDoc now userId none p).user_id == userId) = true := by
      simp [upsertDoc]
    simp only [List.find?_cons, hu]

/-- Deleting the unique match (the schema's unique compound index
guarantees at most one) leaves no match behind. -/
lemma find?_eraseP_of_count_le_one (p : TokenRecord → Bool)
    (store : List TokenRecord) (h : store.countP p ≤ 1) :
    (store.eraseP p).find? p = none := by
  induction store with
  | nil => simp
  | cons r t ih =>
    by_cases hr : p r = true
    · rw [List.eraseP_cons_of_pos hr]
      rw [List.countP_cons_of_pos p t hr] at h
      have ht : t.countP p = 0 := by omega
      rw [List.find?_eq_none]
      intro x hx
      have := List.countP_eq_zero.mp ht x hx
      simpa using this
    · rw [List.countP_cons_of_neg p t hr] at h
      rw [List.eraseP_cons_of_neg hr, List.find?_cons_of_neg _ hr]
      exact ih h

/-- Erasing when nothing matches is the identity. -/
lemma eraseP_of_find?_eq_none (p : TokenRecord → Bool) (store : List TokenRecord)
    (h : store.find? p = none) : store.eraseP p = store :=
  List.eraseP_of_forall_not (List.find?_eq_none.mp h)

/-! ### Sweep lemmas -/

/-- Every iteration of the sweep loop increments exactly one of the two
counters, whichever way the record's refresh goes. -/
lemma sweepStep_count (now : Int) (net : String → NetOutcome)
    (acc : SweepOutcome × List TokenRecord) (tokenDoc : TokenRecord) :
    (sweepStep now net acc tokenDoc).1.success + (sweepStep now net acc tokenDoc).1.failed
      = acc.1.success + acc.1.failed + 1 := by
  unfold sweepStep
  cases h : isRefreshTokenExpired tokenDoc now with
  | true => simp [h]; omega
  | false =>
    cases hr : refreshAccessToken (net tokenDoc.user_id) with
    | error msg => simp [h, hr]; omega
    | ok d => simp [h, hr]; omega

/-- Folding the sweep body over any record list adds exactly the list's
length to the combined counters, from any starting accumulator. -/
lemma sweep_foldl_count (now : Int) (net : String → NetOutcome) :
    ∀ (l : List TokenRecord) (acc : SweepOutcome × List TokenRecord),
      ((l.foldl (sweepStep now net) acc).1.success
          + (l.foldl (sweepStep now net) acc).1.failed)
        = acc.1.success + acc.1.failed + l.length
  | [], acc => by simp
  | tokenDoc :: rest, acc => by
    simp only [List.foldl_cons, List.length_cons]
    rw [sweep_foldl_count now net rest (sweepStep now net acc tokenDoc),
      sweepStep_count]
    omega

/-! ### Claims -/

/-- Claim C1: for every stored token record whose `expires_at` is strictly
in the future — the NearExpiry window within the 24-hour refresh threshold
included — `getValidAccessToken` returns the stored access token
unchanged, leaves the store untouched, and performs zero network calls:
the interactive read path never triggers a refresh. -/
theorem C1_fresh_read_returns_stored_token (now : Int) (userId : String)
    (net : NetOutcome) (store : List TokenRecord) (doc : TokenRecord)
    (hfind : findOne store userId = some doc)
    (hfresh : now < doc.expires_at) :
    getValidAccessToken now userId net store = ⟨.ok doc.access_token, store, 0⟩ := by
  have hexp : isAccessTokenExpired doc now = false := by
    simp only [isAccessTokenExpired, decide_eq_false_iff_not]
    omega
  simp [getValidAccessToken, hfind, hexp]

/-- Witness for C1: a record expiring at 100 read at time 50 (inside the
24-hour NearExpiry window) comes back unchanged with zero network calls. -/
theorem C1_witness :
    findOne [(⟨"u1", "tok", none, "Bearer", 100, none, none⟩ : TokenRecord)] ("u1")
        = some ⟨"u1", "tok", none, "Bearer", 100, none, none⟩
    ∧ (50 : Int) < 100
    ∧ getValidAccessToken 50 ("u1") (NetOutcome.transportError ("down"))
        [⟨"u1", "tok", none, "Bearer", 100, none, none⟩]
        = ⟨.ok ("tok"), [⟨"u1", "tok", none, "Bearer", 100, none, none⟩], 0⟩ :=
  ⟨by decide, by decide,
   C1_fresh_read_returns_stored_token 50 ("u1") (NetOutcome.transportError ("down"))
     [⟨"u1", "tok", none, "Bearer", 100, none, none⟩]
     ⟨"u1", "tok", none, "Bearer", 100, none, none⟩ (by decide) (by decide)⟩

/-- Counterexample for claim C2: with a code and a received state present
but the session-stored expected state absent, the callback handler skips
the state comparison entirely and proceeds to the token exchange — a
missing expected value is treated as success, not as a state-mismatch
failure. -/
theorem C2_counterexample_missing_expected_proceeds :
    callbackStateCheck ⟨some ("c"), some ("s"), none, none⟩ none =
      CallbackOutcome.proceed ("c") false := by
  decide

/-- Claim C2 (amended): when the expected (session) state is present and
non-empty and the received state is present and non-empty, validation
succeeds exactly when the two are byte-equal and fails with
`invalid_state` otherwise; an absent or empty received state fails with
`missing_state`; but when the expected value is absent the comparison is
skipped and the callback proceeds as success. -/
theorem C2_state_validation (c s t : String) (hc : c ≠ "") (hs : s ≠ "") (ht : t ≠ "") :
    (callbackStateCheck ⟨some c, some s, none, none⟩ (some t)
        = if s = t then CallbackOutcome.proceed c true else CallbackOutcome.invalidState)
    ∧ callbackStateCheck ⟨some c, none, none, none⟩ (some t) = CallbackOutcome.missingState
    ∧ callbackStateCheck ⟨some c, some (""), none, none⟩ (some t)
        = CallbackOutcome.missingState
    ∧ callbackStateCheck ⟨some c, some s, none, none⟩ none
        = CallbackOutcome.proceed c false := by
  refine ⟨?_, ?_, ?_, ?_⟩
  · by_cases hst : s = t <;> simp [callbackStateCheck, truthy, hc, hs, ht, hst]
  · simp [callbackStateCheck, truthy, hc]
  · simp [callbackStateCheck, truthy, hc]
  · simp [callbackStateCheck, truthy, hc, hs]

/-- Witness for C2 (amended) at concrete state strings. -/
theorem C2_state_validation_witness :
    (callbackStateCheck ⟨some ("c0"), some ("s0"), none, none⟩ (some ("s0"))
        = if ("s0" : String) = ("s0")
          then CallbackOutcome.proceed ("c0") true else CallbackOutcome.invalidState)
    ∧ callbackStateCheck ⟨some ("c0"), none, none, none⟩ (some ("s0"))
        = CallbackOutcome.missingState
    ∧ callbackStateCheck ⟨some ("c0"), some (""), none, none⟩ (some ("s0"))
        = CallbackOutcome.missingState
    ∧ callbackStateCheck ⟨some ("c0"), some ("s0"), none, none⟩ none
        = CallbackOutcome.proceed ("c0") false :=
  C2_state_validation ("c0") ("s0") ("s0") (by decide) (by decide) (by decide)

/-- Claim C3: when the access token is expired and no refresh is possible
— the refresh token is absent, or its own expiry has passed — the call
fails in the `ReauthorizationRequired` category, leaves the store
unchanged and performs zero network calls; and an absent
`refresh_expires_at` means the refresh token never counts as expired, so
such a record is never classified BothExpired. -/
theorem C3_reauthorization_required :
    (∀ (now : Int) (userId : String) (net : NetOutcome) (store : List TokenRecord)
        (doc : TokenRecord),
        findOne store userId = some doc →
        doc.expires_at ≤ now →
        (doc.refresh_token = none ∨ ∃ t, doc.refresh_expires_at = some t ∧ t ≤ now) →
        (getValidAccessToken now userId net store).failsReauthorization = true
          ∧ (getValidAccessToken now userId net store).store = store
          ∧ (getValidAccessToken now userId net store).networkCalls = 0)
    ∧ ∀ (doc : TokenRecord) (now : Int),
        doc.refresh_expires_at = none → isRefreshTokenExpired doc now = false := by
  constructor
  · intro now userId net store doc hfind hexp hdead
    have hexpired : isAccessTokenExpired doc now = true := by
      simp only [isAccessTokenExpired, decide_eq_true_eq]
      omega
    cases hrt : doc.refresh_token with
    | none =>
      refine ⟨?_, ?_, ?_⟩ <;>
        simp [getValidAccessToken, hfind, hexpired, hrt, AccessResult.failsReauthorization,
          OAuthError.isReauthorizationRequired]
    | some rt =>
      rcases hdead with hnone | ⟨t, hts, htle⟩
      · rw [hrt] at hnone
        cases hnone
      · have hrexp : isRefreshTokenExpired doc now = true := by
          simp only [isRefreshTokenExpired, hts, decide_eq_true_eq]
          omega
        by_cases hempty : rt = ""
        · refine ⟨?_, ?_, ?_⟩ <;>
            simp [getValidAccessToken, hfind, hexpired, hrt, hempty,
              AccessResult.failsReauthorization, OAuthError.isReauthorizationRequired]
        · refine ⟨?_, ?_, ?_⟩ <;>
            simp [getValidAccessToken, hfind, hexpired, hrt, hempty, hrexp,
              AccessResult.failsReauthorization, OAuthError.isReauthorizationRequired]
  · intro doc now h
    simp [isRefreshTokenExpired, h]

/-- Witness for C3: a record expired at 10, read at 50, with no refresh
token, fails in the reauthorization category with no write and no call. -/
theorem C3_witness :
    (⟨"u1", "a", none, "Bearer", 10, none, none⟩ : TokenRecord).refresh_token = none
    ∧ (getValidAccessToken 50 ("u1") (NetOutcome.transportError ("x"))
        [⟨"u1", "a", none, "Bearer", 10, none, none⟩]).failsReauthorization = true
    ∧ (getValidAccessToken 50 ("u1") (NetOutcome.transportError ("x"))
        [⟨"u1", "a", none, "Bearer", 10, none, none⟩]).store
        = [⟨"u1", "a", none, "Bearer", 10, none, none⟩]
    ∧ (getValidAccessToken 50 ("u1") (NetOutcome.transportError ("x"))
        [⟨"u1", "a", none, "Bearer", 10, none, none⟩]).networkCalls = 0 :=
  ⟨rfl,
   (C3_reauthorization_required.1 50 ("u1") (NetOutcome.transportError ("x"))
      [⟨"u1", "a", none, "Bearer", 10, none, none⟩]
      ⟨"u1", "a", none, "Bearer", 10, none, none⟩ (by decide) (by decide) (Or.inl rfl)).1,
   (C3_reauthorization_required.1 50 ("u1") (NetOutcome.transportError ("x"))
      [⟨"u1", "a", none, "Bearer", 10, none, none⟩]
      ⟨"u1", "a", none, "Bearer", 10, none, none⟩ (by decide) (by decide) (Or.inl rfl)).2.1,
   (C3_reauthorization_required.1 50 ("u1") (NetOutcome.transportError ("x"))
      [⟨"u1", "a", none, "Bearer", 10, none, none⟩]
      ⟨"u1", "a", none, "Bearer", 10, none, none⟩ (by decide) (by decide) (Or.inl rfl)).2.2⟩

/-- Claim C4: when the refresh attempt inside `getValidAccessToken` fails
(transport error or provider-reported error), the failure propagates as
the refresh-failed error and the stored record is left exactly as it was
— no partial write occurs. -/
theorem C4_refresh_failure_is_atomic (now : Int) (userId : String)
    (store : List TokenRecord) (doc : TokenRecord) (rt msg : String) (net : NetOutcome)
    (hfind : findOne store userId = some doc)
    (hexp : doc.expires_at ≤ now)
    (hrt : doc.refresh_token = some rt) (hne : rt ≠ "")
    (hvalid : isRefreshTokenExpired doc now = false)
    (hnet : refreshAccessToken net = .error msg) :
    getValidAccessToken now userId net store =
      ⟨.error (.refreshFailed msg), store, 1⟩ := by
  have hexpired : isAccessTokenExpired doc now = true := by
    simp only [isAccessTokenExpired, decide_eq_true_eq]
    omega
  simp [getValidAccessToken, hfind, hexpired, hrt, hne, hvalid, hnet]

/-- Witness for C4: an expired record with a live refresh token, hit by a
transport failure, propagates the error and leaves the store untouched. -/
theorem C4_witness :
    findOne [(⟨"u1", "old", some ("r"), "Bearer", 10, none, none⟩ : TokenRecord)] ("u1")
        = some ⟨"u1", "old", some ("r"), "Bearer", 10, none, none⟩
    ∧ (10 : Int) ≤ 50
    ∧ refreshAccessToken (NetOutcome.transportError ("timeout"))
        = .error ("Token refresh failed: timeout")
    ∧ getValidAccessToken 50 ("u1") (NetOutcome.transportError ("timeout"))
        [⟨"u1", "old", some ("r"), "Bearer", 10, none, none⟩]
        = ⟨.error (.refreshFailed ("Token refresh failed: timeout")),
           [⟨"u1", "old", some ("r"), "Bearer", 10, none, none⟩], 1⟩ :=
  ⟨by decide, by decide, rfl,
   C4_refresh_failure_is_atomic 50 ("u1")
     [⟨"u1", "old", some ("r"), "Bearer", 10, none, none⟩]
     ⟨"u1", "old", some ("r"), "Bearer", 10, none, none⟩
     ("r") ("Token refresh failed: timeout") (NetOutcome.transportError ("timeout"))
     (by decide) (by decide) rfl (by decide) rfl rfl⟩

/-- Claim C5: when the access token is expired and a non-empty refresh
token is present and not itself expired, `getValidAccessToken` performs
exactly one network call, persists the refreshed payload by upsert —
replacing both secrets and both expiry fields — returns the new access
token, and the stored `expires_at` afterwards is strictly greater than
the old one whenever `expires_in` is positive. -/
theorem C5_expired_refresh_succeeds (now : Int) (userId : String)
    (store : List TokenRecord) (doc : TokenRecord) (rt rt2 : String) (p : TokenPayload)
    (hfind : findOne store userId = some doc)
    (hexp : doc.expires_at ≤ now)
    (hrt : doc.refresh_token = some rt) (hne : rt ≠ "")
    (hvalid : isRefreshTokenExpired doc now = false)
    (hp : p.refresh_token = some rt2)
    (hpos : 0 < p.expires_in) :
    getValidAccessToken now userId (.success p) store =
        ⟨.ok p.access_token, storeTokens now userId p store, 1⟩
    ∧ findOne (storeTokens now userId p store) userId =
        some (upsertDoc now userId (some doc) p)
    ∧ (upsertDoc now userId (some doc) p).access_token = p.access_token
    ∧ (upsertDoc now userId (some doc) p).refresh_token = some rt2
    ∧ (upsertDoc now userId (some doc) p).expires_at = now + p.expires_in
    ∧ (upsertDoc now userId (some doc) p).refresh_expires_at =
        (match p.refresh_token_expires_in with
         | some s => if s = 0 then none else some (now + s)
         | none => none)
    ∧ doc.expires_at < (upsertDoc now userId (some doc) p).expires_at := by
  have hexpired : isAccessTokenExpired doc now = true := by
    simp only [isAccessTokenExpired, decide_eq_true_eq]
    omega
  refine ⟨?_, ?_, rfl, ?_, rfl, rfl, ?_⟩
  · simp [getValidAccessToken, hfind, hexpired, hrt, hne, hvalid, refreshAccessToken]
  · rw [findOne_storeTokens, hfind]
  · simp [upsertDoc, hp]
  · simp only [upsertDoc]
    omega

/-- Witness for C5: an expired record refreshed with a payload granting
5184000 seconds; exactly one call, the payload is stored, and the new
expiry strictly exceeds the old. -/
theorem C5_witness :
    findOne [(⟨"u2", "old", some ("r"), "Bearer", 10, none, none⟩ : TokenRecord)] ("u2")
        = some ⟨"u2", "old", some ("r"), "Bearer", 10, none, none⟩
    ∧ (10 : Int) ≤ 50
    ∧ (⟨"newtok", 5184000, some ("newr"), none, none, some ("Bearer")⟩ :
        TokenPayload).refresh_token = some ("newr")
    ∧ getValidAccessToken 50 ("u2")
        (.success ⟨"newtok", 5184000, some ("newr"), none, none, some ("Bearer")⟩)
        [⟨"u2", "old", some ("r"), "Bearer", 10, none, none⟩]
        = ⟨.ok ("newtok"),
           storeTokens 50 ("u2")
             ⟨"newtok", 5184000, some ("newr"), none, none, some ("Bearer")⟩
             [⟨"u2", "old", some ("r"), "Bearer", 10, none, none⟩], 1⟩
    ∧ (10 : Int) <
        (upsertDoc 50 ("u2") (some ⟨"u2", "old", some ("r"), "Bearer", 10, none, none⟩)
          ⟨"newtok", 5184000, some ("newr"), none, none, some ("Bearer")⟩).expires_at :=
  ⟨by decide, by decide, rfl,
   (C5_expired_refresh_succeeds 50 ("u2")
      [⟨"u2", "old", some ("r"), "Bearer", 10, none, none⟩]
      ⟨"u2", "old", some ("r"), "Bearer", 10, none, none⟩ ("r") ("newr")
      ⟨"newtok", 5184000, some ("newr"), none, none, some ("Bearer")⟩
      (by decide) (by decide) rfl (by decide) rfl rfl (by decide)).1,
   (C5_expired_refresh_succeeds 50 ("u2")
      [⟨"u2", "old", some ("r"), "Bearer", 10, none, none⟩]
      ⟨"u2", "old", some ("r"), "Bearer", 10, none, none⟩ ("r") ("newr")
      ⟨"newtok", 5184000, some ("newr"), none, none, some ("Bearer")⟩
      (by decide) (by decide) rfl (by decide) rfl rfl (by decide)).2.2.2.2.2.2⟩

/-- Claim C6: `revokeTokens` is idempotent — under the schema's uniqueness
invariant (at most one record per user–provider key), revoking once
already removes the record, and revoking again succeeds and changes
nothing, so afterwards no record exists for the key. -/
theorem C6_revoke_idempotent (userId : String) (store : List TokenRecord)
    (hUnique : store.countP (fun doc => doc.user_id == userId) ≤ 1) :
    findOne (revokeTokens userId store) userId = none
    ∧ findOne (revokeTokens userId (revokeTokens userId store)) userId = none
    ∧ revokeTokens userId (revokeTokens userId store) = revokeTokens userId store := by
  have h1 : findOne (revokeTokens userId store) userId = none :=
    find?_eraseP_of_count_le_one _ store hUnique
  have h2 : revokeTokens userId (revokeTokens userId store) = revokeTokens userId store :=
    eraseP_of_find?_eq_none _ _ h1
  exact ⟨h1, by rw [h2]; exact h1, h2⟩

/-- Witness for C6 on a one-record store. -/
theorem C6_witness :
    ([(⟨"u1", "a", none, "Bearer", 10, none, none⟩ : TokenRecord)].countP
        (fun doc => doc.user_id == ("u1"))) ≤ 1
    ∧ findOne (revokeTokens ("u1")
        [(⟨"u1", "a", none, "Bearer", 10, none, none⟩ : TokenRecord)]) ("u1") = none
    ∧ findOne (revokeTokens ("u1") (revokeTokens ("u1")
        [(⟨"u1", "a", none, "Bearer", 10, none, none⟩ : TokenRecord)])) ("u1") = none
    ∧ revokeTokens ("u1") (revokeTokens ("u1")
        [(⟨"u1", "a", none, "Bearer", 10, none, none⟩ : TokenRecord)])
        = revokeTokens ("u1") [(⟨"u1", "a", none, "Bearer", 10, none, none⟩ : TokenRecord)] :=
  ⟨by decide,
   (C6_revoke_idempotent ("u1")
      [⟨"u1", "a", none, "Bearer", 10, none, none⟩] (by decide)).1,
   (C6_revoke_idempotent ("u1")
      [⟨"u1", "a", none, "Bearer", 10, none, none⟩] (by decide)).2.1,
   (C6_revoke_idempotent ("u1")
      [⟨"u1", "a", none, "Bearer", 10, none, none⟩] (by decide)).2.2⟩

/-- Claim C7: round-trip — `storeTokens` followed immediately by a read
with secrets returns an access token identical to the one supplied, and
an `expires_at` equal to `now + expires_in` (the relative-to-absolute
conversion happens once, at write time), hence within the 2-second
tolerance of it. -/
theorem C7_store_roundtrip (now : Int) (userId : String) (p : TokenPayload)
    (store : List TokenRecord) :
    findOne (storeTokens now userId p store) userId =
        some (upsertDoc now userId (findOne store userId) p)
    ∧ (upsertDoc now userId (findOne store userId) p).access_token = p.access_token
    ∧ (upsertDoc now userId (findOne store userId) p).expires_at = now + p.expires_in
    ∧ ((upsertDoc now userId (findOne store userId) p).expires_at
        - (now + p.expires_in)).natAbs ≤ 2 :=
  ⟨findOne_storeTokens now userId p store, rfl, rfl, by simp [upsertDoc]⟩

/-- Claim C8: the sweep never raises — it is a total function into its
aggregate result, and per-record failures are isolated: the combined
counters always account for every fetched record, one each (first
conjunct); and over a store holding one record whose refresh succeeds and
one whose refresh hits a transport error, the result is one success and
one failure with the failing user listed, and the failing record is left
unchanged in the store (remaining conjuncts). -/
theorem C8_sweep_isolation :
    (∀ (now : Int) (net : String → NetOutcome) (store : List TokenRecord),
        (refreshExpiringTokens now net store).1.success
            + (refreshExpiringTokens now net store).1.failed
          = (findTokensNeedingRefresh now store).length)
    ∧ (refreshExpiringTokens 1000
          (fun u => if u == ("u1")
            then NetOutcome.success
              ⟨"a1new", 5184000, some ("r1new"), none, none, some ("Bearer")⟩
            else NetOutcome.transportError ("timeout"))
          [⟨"u1", "a1", some ("r1"), "Bearer", 0, none, none⟩,
           ⟨"u2", "a2", some ("r2"), "Bearer", 0, none, none⟩]).1
        = ⟨1, 1, [("u2", "Token refresh failed: timeout")]⟩
    ∧ findOne (refreshExpiringTokens 1000
          (fun u => if u == ("u1")
            then NetOutcome.success
              ⟨"a1new", 5184000, some ("r1new"), none, none, some ("Bearer")⟩
            else NetOutcome.transportError ("timeout"))
          [⟨"u1", "a1", some ("r1"), "Bearer", 0, none, none⟩,
           ⟨"u2", "a2", some ("r2"), "Bearer", 0, none, none⟩]).2 ("u2")
        = some ⟨"u2", "a2", some ("r2"), "Bearer", 0, none, none⟩ := by
  refine ⟨?_, by decide, by decide⟩
  intro now net store
  unfold refreshExpiringTokens
  rw [sweep_foldl_count]
  simp

/-- Claim C9: `findTokensNeedingRefresh` returns exactly the stored
records whose `expires_at` falls within one day of now and which carry a
present, non-null refresh token; every record without one is excluded. -/
theorem C9_findExpiring_characterization (now : Int) (store : List TokenRecord)
    (doc : TokenRecord) :
    doc ∈ findTokensNeedingRefresh now store ↔
      doc ∈ store ∧ doc.expires_at ≤ now + oneDaySeconds
        ∧ doc.refresh_token.isSome = true := by
  simp [findTokensNeedingRefresh, List.mem_filter, needsRefresh, and_assoc]

/-- Claim C10: a `storeTokens` call whose payload lacks
`refresh_token_expires_in` writes `refresh_expires_at = null`, so the
stored record's refresh token is classified as never expiring from then
on — a refresh response omitting the field converts a previously expiring
refresh token into a non-expiring one. -/
theorem C10_omitted_refresh_expiry_never_expires (now : Int) (userId : String)
    (p : TokenPayload) (store : List TokenRecord) (doc : TokenRecord)
    (hp : p.refresh_token_expires_in = none)
    (hfind : findOne (storeTokens now userId p store) userId = some doc) :
    doc.refresh_expires_at = none ∧ ∀ t, isRefreshTokenExpired doc t = false := by
  rw [findOne_storeTokens] at hfind
  injection hfind with h
  subst h
  constructor
  · simp [upsertDoc, hp]
  · intro t
    simp [isRefreshTokenExpired, upsertDoc, hp]

/-- Witness for C10: storing a payload without the field over a previously
expiring record leaves a record that never counts as refresh-expired. -/
theorem C10_witness :
    (⟨"na", 100, some ("nr"), none, none, none⟩ : TokenPayload).refresh_token_expires_in
        = none
    ∧ findOne (storeTokens 0 ("u")
        ⟨"na", 100, some ("nr"), none, none, none⟩
        [⟨"u", "olda", some ("oldr"), "Bearer", (-5), some 1, none⟩]) ("u")
        = some ⟨"u", "na", some ("nr"), "Bearer", 100, none, none⟩
    ∧ (⟨"u", "na", some ("nr"), "Bearer", 100, none, none⟩ :
        TokenRecord).refresh_expires_at = none
    ∧ isRefreshTokenExpired ⟨"u", "na", some ("nr"), "Bearer", 100, none, none⟩ 999999
        = false :=
  ⟨rfl, by decide,
   (C10_omitted_refresh_expiry_never_expires 0 ("u")
      ⟨"na", 100, some ("nr"), none, none, none⟩
      [⟨"u", "olda", some ("oldr"), "Bearer", (-5), some 1, none⟩]
      ⟨"u", "na", some ("nr"), "Bearer", 100, none, none⟩ rfl (by decide)).1,
   (C10_omitted_refresh_expiry_never_expires 0 ("u")
      ⟨"na", 100, some ("nr"), none, none, none⟩
      [⟨"u", "olda", some ("oldr"), "Bearer", (-5), some 1, none⟩]
      ⟨"u", "na", some ("nr"), "Bearer", 100, none, none⟩ rfl (by decide)).2 999999⟩

end LinkedInOAuth
